import Mathlib

/-!
Verification of the resilient scheduler RPC client of the aurora client
library, against its natural-language specification.

The repository fragment under verification contains
`src/main/python/apache/aurora/client/api/__init__.py` (the
`AuroraClientAPI` wrapper) and the test file
`src/test/python/apache/aurora/client/api/test_scheduler_client.py`.
The module `scheduler_client.py` itself (classes `SchedulerProxy`,
`SchedulerClient`, `ZookeeperSchedulerClient`) is not part of the
fragment; its observable contract is specified in the design document
(sections 3, 4.1 to 4.4, 7, 8) and exercised by the test file.  The
definitions below that concern it are therefore modelled from the spec,
as indicated in their doc comments.  The `AuroraClientAPI` definitions
are embedded directly from the python source.
-/

namespace Aurora

/-! ## Data model (spec section 3) -/

/-- Response codes of the generic response envelope.  The spec lists
`OK, ERROR, ERROR_TRANSIENT, ...`; the open tail is represented by the
extra constructors used in the thrift API. -/
inductive ResponseCode
  | OK
  | ERROR
  | ERROR_TRANSIENT
  | INVALID_REQUEST
  | AUTH_FAILED
  deriving DecidableEq, Repr

/-- Server metadata carried on every response; the client checks
`protocolVersion` against its compiled-in expected version. -/
structure ServerInfo where
  protocolVersion : Nat
  deriving DecidableEq, Repr

/-- The response envelope every RPC return value is wrapped in:
`{responseCode, serverInfo, details}`. -/
structure Response where
  responseCode : ResponseCode
  serverInfo : ServerInfo
  details : List String
  deriving DecidableEq, Repr

/-- Opaque authentication token pair `{mechanism, data}` produced by an
injectable factory and attached to every privileged RPC. -/
structure Session where
  mechanism : String
  data : String
  deriving DecidableEq, Repr

/-- A positional RPC argument: either an opaque payload or an injected
session credential. -/
inductive Arg
  | plain (payload : Nat)
  | session (s : Session)
  deriving DecidableEq, Repr

/-! ## RpcInvoker (spec section 4.4)

Modelled from the spec: `SchedulerProxy` is not part of the source
fragment, only its tests are.  The invoker model follows spec section
4.4 steps 2 to 6: fetch a fresh session before each dispatch when the
RPC requires one, dispatch, check the protocol version (fatal
`ThriftInternalError` on mismatch, never retried), retry on
`ERROR_TRANSIENT`, translate transport auth failures to a fatal
`AuthError`, and reconnect-and-redispatch on a transport failure.  The
unbounded retry loop of the spec is given explicit fuel so the model is
executable; every claim quantifies over sufficient fuel. -/

/-- Outcome of one underlying thrift dispatch: a response envelope, an
authentication failure raised by the transport, or a transport-level
failure. -/
inductive DispatchResult
  | reply (r : Response)
  | authFailure
  | transportFailure
  deriving DecidableEq, Repr

/-- What a single `SchedulerProxy` call delivers to the caller:
a returned response, a raised `ThriftInternalError`, a raised
`AuthError`, or fuel exhaustion of the model (the spec retry loop is
unbounded). -/
inductive InvokeOutcome
  | returned (r : Response)
  | thriftInternalError
  | authError
  | exhausted
  deriving DecidableEq, Repr

/-- Static configuration of the proxy model: the compiled-in expected
protocol version, whether the wrapped RPC signature requires a session
argument, and the injectable session-key factory.  The factory is
indexed by fetch count: its `k`-th invocation yields `session_key k`,
so distinct fetches are observable. -/
structure ProxyConfig where
  expectedVersion : Nat
  requiresSession : Bool
  session_key : Nat → Session

/-- Modelled from the spec (section 4.4 step 2): the argument list
passed to one underlying dispatch — the caller arguments, with a
freshly obtained session appended as the final argument when the RPC
signature requires one.  `fetches` is the index of this session fetch. -/
def argsFor (cfg : ProxyConfig) (base : List Arg) (fetches : Nat) : List Arg :=
  if cfg.requiresSession then base ++ [Arg.session (cfg.session_key fetches)] else base

/-- Modelled from the spec (section 4.4 steps 2 to 6): the retry loop of
a single `SchedulerProxy` call.  `dispatch k` is the behaviour of the
`k`-th underlying thrift dispatch (the tests drive this with a mock
side-effect list); `k` also counts session fetches, since a fresh
session is fetched before each dispatch.  Returns the outcome together
with the trace of argument lists passed to each underlying dispatch. -/
def invokeLoop (cfg : ProxyConfig) (dispatch : Nat → DispatchResult) (base : List Arg) :
    Nat → Nat → InvokeOutcome × List (List Arg)
  | 0, _ => (InvokeOutcome.exhausted, [])
  | fuel + 1, k =>
    let args := argsFor cfg base k
    match dispatch k with
    | DispatchResult.authFailure => (InvokeOutcome.authError, [args])
    | DispatchResult.transportFailure =>
        let rest := invokeLoop cfg dispatch base fuel (k + 1)
        (rest.1, args :: rest.2)
    | DispatchResult.reply r =>
        if r.serverInfo.protocolVersion = cfg.expectedVersion then
          if r.responseCode = ResponseCode.ERROR_TRANSIENT then
            let rest := invokeLoop cfg dispatch base fuel (k + 1)
            (rest.1, args :: rest.2)
          else (InvokeOutcome.returned r, [args])
        else (InvokeOutcome.thriftInternalError, [args])

/-- A single `SchedulerProxy` call, starting at dispatch index 0. -/
def invoke (cfg : ProxyConfig) (dispatch : Nat → DispatchResult) (base : List Arg)
    (fuel : Nat) : InvokeOutcome × List (List Arg) :=
  invokeLoop cfg dispatch base fuel 0

/-! ## TransportConnector (spec section 4.2)

Modelled from the spec: `SchedulerClient._connect_scheduler` is not part
of the source fragment.  The connector attempts to open a transport; on
a transport-level failure it sleeps a constant backoff interval
`RETRY_TIMEOUT` (not exponential) and retries, until success or the
deadline (modelled as fuel) is exceeded. -/

/-- Outcome of one transport-open attempt. -/
inductive OpenResult
  | success
  | transportError
  deriving DecidableEq, Repr

/-- Final outcome of the connect loop. -/
inductive ConnectOutcome
  | connected
  | timedOut
  deriving DecidableEq, Repr

/-- Observable record of a connect: outcome, number of open attempts
performed, and the durations of the sleeps performed, in order. -/
structure ConnectTrace where
  outcome : ConnectOutcome
  attempts : Nat
  sleeps : List Nat
  deriving DecidableEq, Repr

/-- The constant connect backoff interval, in seconds
(`SchedulerClient.RETRY_TIMEOUT`; the spec fixes only that it is a
constant). -/
def RETRY_TIMEOUT : Nat := 5

/-- Modelled from the spec (section 4.2): the connect retry loop.
`attempt k` is the behaviour of the `k`-th transport-open attempt; on a
transport error the connector sleeps the constant `retryTimeout` and
retries; the caller-supplied deadline is modelled as fuel. -/
def connect_scheduler (attempt : Nat → OpenResult) (retryTimeout : Nat) :
    Nat → Nat → ConnectTrace
  | 0, _ => ⟨ConnectOutcome.timedOut, 0, []⟩
  | fuel + 1, k =>
    match attempt k with
    | OpenResult.success => ⟨ConnectOutcome.connected, 1, []⟩
    | OpenResult.transportError =>
        let rest := connect_scheduler attempt retryTimeout fuel (k + 1)
        ⟨rest.outcome, rest.attempts + 1, retryTimeout :: rest.sleeps⟩

/-! ## EndpointResolver and the zookeeper scheduler client
(spec sections 3, 4.1)

Modelled from the spec: `ZookeeperSchedulerClient` is not part of the
source fragment.  Discovery yields a set of service instances; the
resolver selects the alive leader replica, prefers an alternate
endpoint whose scheme matches the required scheme, and tracks the
logical address (`url`, the proxy URL when one is configured) apart
from the physical address (`raw_url`, the resolved leader endpoint)
that transports are opened against. -/

/-- A bare host/port endpoint, as advertised under a scheme key in
`additionalEndpoints`. -/
structure Endpoint where
  host : String
  port : Nat
  deriving DecidableEq, Repr

/-- An endpoint together with its scheme, as in the spec data model
`ServiceEndpoint` of host, port and scheme. -/
structure SchemedEndpoint where
  scheme : String
  host : String
  port : Nat
  deriving DecidableEq, Repr

/-- Liveness status of a discovered service instance. -/
inductive InstanceStatus
  | ALIVE
  | DEAD
  deriving DecidableEq, Repr

/-- A discovered scheduler replica: its primary endpoint, its
scheme-keyed alternate endpoints, its status and its shard. -/
structure ServiceInstance where
  serviceEndpoint : SchemedEndpoint
  additionalEndpoints : List (String × Endpoint)
  status : InstanceStatus
  shard : Nat
  deriving DecidableEq, Repr

/-- Modelled from the spec (section 4.1): scheme preference — prefer the
alternate endpoint whose scheme matches the required scheme, falling
back to the primary endpoint (with the primary endpoint's scheme). -/
def resolveWithScheme (inst : ServiceInstance) (requiredScheme : String) : SchemedEndpoint :=
  match inst.additionalEndpoints.lookup requiredScheme with
  | some ep => ⟨requiredScheme, ep.host, ep.port⟩
  | none => inst.serviceEndpoint

/-- Modelled from the spec (section 4.1): the leader is the replica
flagged alive by the membership registry. -/
def getLeader (instances : List ServiceInstance) : Option ServiceInstance :=
  instances.find? (fun i => i.status == InstanceStatus.ALIVE)

/-- Render an endpoint as a URL string `scheme://host:port`. -/
def mkUrl (e : SchemedEndpoint) : String :=
  e.scheme ++ "://" ++ e.host ++ ":" ++ toString e.port

/-- Immutable cluster descriptor: cluster name and optional static
proxy URL. -/
structure Cluster where
  name : String
  proxyUrl : Option String
  deriving DecidableEq, Repr

/-- Modelled from the spec: the observable state of a
`ZookeeperSchedulerClient` — configuration (cluster, required scheme),
the serverset contents the membership registry would return, the cached
resolved endpoint, and instrumentation: the number of registry lookups
performed, the addresses transports were opened against, and whether a
transport is currently held. -/
structure ZkSchedulerClient where
  cluster : Cluster
  requiredScheme : String
  serverset : List ServiceInstance
  cachedEndpoint : Option SchemedEndpoint
  lookups : Nat
  connects : List String
  hasTransport : Bool
  deriving DecidableEq, Repr

/-- The endpoint a registry lookup would resolve: the alive leader's
endpoint under scheme preference. -/
def discoverEndpoint (c : ZkSchedulerClient) : Option SchemedEndpoint :=
  (getLeader c.serverset).map (fun i => resolveWithScheme i c.requiredScheme)

/-- Modelled from the spec (section 3 lifecycle): resolve and cache the
endpoint if none is cached; a cached endpoint is reused without a new
registry lookup. -/
def ensureEndpoint (c : ZkSchedulerClient) : ZkSchedulerClient :=
  match c.cachedEndpoint with
  | some _ => c
  | none => { c with cachedEndpoint := discoverEndpoint c, lookups := c.lookups + 1 }

/-- Modelled from the spec (section 4.1): the physical address — the
resolved leader endpoint rendered as a URL. -/
def raw_url (c : ZkSchedulerClient) : Option String :=
  ((ensureEndpoint c).cachedEndpoint).map mkUrl

/-- Modelled from the spec (section 4.1): the logical address — the
proxy URL when one is configured, else the physical address. -/
def url (c : ZkSchedulerClient) : Option String :=
  match c.cluster.proxyUrl with
  | some p => some p
  | none => raw_url c

/-- Modelled from the spec (sections 3, 4.4 step 1): obtain the thrift
client — resolve and cache an endpoint if needed, then open a transport
against the physical address (the api path under `raw_url`) unless one
is already held. -/
def get_thrift_client (c : ZkSchedulerClient) : ZkSchedulerClient :=
  let c1 := ensureEndpoint c
  if c1.hasTransport then c1
  else
    match c1.cachedEndpoint with
    | some ep => { c1 with hasTransport := true, connects := c1.connects ++ [mkUrl ep ++ "/api"] }
    | none => c1

/-- Modelled from the spec (section 4.4 step 6): a transport-level error
invalidates the connection — the cached endpoint and transport are
dropped, so the next call re-resolves and reconnects. -/
def invalidate (c : ZkSchedulerClient) : ZkSchedulerClient :=
  { c with cachedEndpoint := none, hasTransport := false }

/-! ## AuroraClientAPI
(embedded from `src/main/python/apache/aurora/client/api/__init__.py`)

The collaborators of `AuroraClientAPI` (`AuroraJobKey`, `Updater`,
`Restarter`, `Sla`, the thrift types) are outside the fragment and are
modelled opaquely: each delegated operation is recorded as one tagged
proxy dispatch, and the scheduler proxy is an arbitrary function from
dispatches to results.  The control flow of the API methods themselves
— argument validation, dispatch, and exception translation — is
embedded from the python source. -/

/-- A job key as `AuroraJobKey`: cluster, role, environment, name. -/
structure AuroraJobKey where
  cluster : String
  role : String
  env : String
  name : String
  deriving DecidableEq, Repr

/-- A thrift `JobKey` as produced by `AuroraJobKey.to_thrift`. -/
structure JobKey where
  role : String
  environment : String
  name : String
  deriving DecidableEq, Repr

/-- `AuroraJobKey.to_thrift` (collaborator outside the fragment,
modelled as projecting the thrift fields). -/
def AuroraJobKey.to_thrift (k : AuroraJobKey) : JobKey :=
  ⟨k.role, k.env, k.name⟩

/-- A thrift `TaskQuery`, reduced to the fields `AuroraClientAPI`
manipulates: the job keys matched and the optional instance filter. -/
structure TaskQuery where
  jobKeys : List JobKey
  instanceIds : Option (List Nat)
  deriving DecidableEq, Repr

/-- `AuroraJobKey.to_thrift_query` (collaborator outside the fragment,
modelled as a query matching exactly the thrift job key). -/
def AuroraJobKey.to_thrift_query (k : AuroraJobKey) : TaskQuery :=
  ⟨[k.to_thrift], none⟩

/-- A thrift `Lock`, opaque to the API layer. -/
structure Lock where
  lockId : Nat
  deriving DecidableEq, Repr

/-- A dispatch sent to the scheduler proxy (or, for the delegated
update/restart/sla operations, to the collaborator that drives the
proxy), tagged by operation. -/
inductive Rpc
  | startCronJob (k : JobKey)
  | killTasks (q : TaskQuery) (lock : Option Lock)
  | getTasksStatus (q : TaskQuery)
  | getTasksWithoutConfigs (q : TaskQuery)
  | updaterCancelUpdate (k : AuroraJobKey)
  | restarterRestart (k : AuroraJobKey) (instances : Option (List Nat))
  | slaJobUptimeVector (k : AuroraJobKey)
  deriving DecidableEq, Repr

/-- What the scheduler proxy does with a dispatch: return a response
envelope, or raise `SchedulerProxy.ThriftInternalError` carrying its
first exception argument. -/
inductive ProxyResult
  | reply (r : Response)
  | thriftError (arg : String)
  deriving DecidableEq, Repr

/-- The errors `AuroraClientAPI` raises itself: the builtin `TypeError`
from `_assert_valid_job_key`, `AuroraClientAPI.ClusterMismatch`, and
`AuroraClientAPI.ThriftInternalError` (the translated form). -/
inductive ApiError
  | typeError (msg : String)
  | clusterMismatch (msg : String)
  | thriftInternalError (arg : String)
  deriving DecidableEq, Repr

/-- Observable outcome of an `AuroraClientAPI` method: a returned
response, an error raised by the API layer itself, or an uncaught
`SchedulerProxy.ThriftInternalError` propagating through. -/
inductive CallOutcome
  | ok (r : Response)
  | apiError (e : ApiError)
  | proxyThriftError (arg : String)
  deriving DecidableEq, Repr

/-- The `job_key` argument as received by an API method: either an
actual `AuroraJobKey` instance, or a value of some other type
(described by a string, standing for any non-`AuroraJobKey` python
value). -/
inductive JobKeyArg
  | aurora (k : AuroraJobKey)
  | other (descr : String)
  deriving DecidableEq, Repr

/-- The `AuroraClientAPI` instance state the methods read: its
configured cluster. -/
structure AuroraClientAPI where
  cluster : Cluster
  deriving DecidableEq, Repr

/-- The `TypeError` message of `_assert_valid_job_key`. -/
def typeErrorMsg (descr : String) : String :=
  "Invalid job_key " ++ descr ++ ": expected AuroraJobKey"

/-- The `ClusterMismatch` message of `_assert_valid_job_key`. -/
def clusterMismatchMsg (k : AuroraJobKey) (clusterName : String) : String :=
  "job " ++ k.cluster ++ "/" ++ k.role ++ "/" ++ k.env ++ "/" ++ k.name ++
    " does not belong to cluster " ++ clusterName

/-- `AuroraClientAPI._assert_valid_job_key`: raise `TypeError` when the
argument is not an `AuroraJobKey`, raise `ClusterMismatch` when its
cluster differs from the configured cluster's name; otherwise the key
is valid.  (The python returns `None`; the embedding returns the
validated key.) -/
def assert_valid_job_key (api : AuroraClientAPI) (job_key : JobKeyArg) :
    Except ApiError AuroraJobKey :=
  match job_key with
  | JobKeyArg.other d => Except.error (ApiError.typeError (typeErrorMsg d))
  | JobKeyArg.aurora k =>
      if k.cluster ≠ api.cluster.name then
        Except.error (ApiError.clusterMismatch (clusterMismatchMsg k api.cluster.name))
      else
        Except.ok k

/-- Dispatch one rpc through the proxy, propagating a proxy
`ThriftInternalError` untranslated (the API methods other than `query`
and `query_no_configs` do not catch it).  Also returns the dispatch
trace. -/
def dispatchRaw (proxy : Rpc → ProxyResult) (rpc : Rpc) : CallOutcome × List Rpc :=
  match proxy rpc with
  | ProxyResult.reply r => (CallOutcome.ok r, [rpc])
  | ProxyResult.thriftError a => (CallOutcome.proxyThriftError a, [rpc])

/-- `AuroraClientAPI.query`: forward to `getTasksStatus`, translating
`SchedulerProxy.ThriftInternalError` into
`AuroraClientAPI.ThriftInternalError` carrying the same first exception
argument. -/
def query (proxy : Rpc → ProxyResult) (q : TaskQuery) : CallOutcome × List Rpc :=
  match proxy (Rpc.getTasksStatus q) with
  | ProxyResult.reply r => (CallOutcome.ok r, [Rpc.getTasksStatus q])
  | ProxyResult.thriftError a =>
      (CallOutcome.apiError (ApiError.thriftInternalError a), [Rpc.getTasksStatus q])

/-- `AuroraClientAPI.query_no_configs`: forward to
`getTasksWithoutConfigs`, translating `SchedulerProxy.ThriftInternalError`
into `AuroraClientAPI.ThriftInternalError` carrying the same first
exception argument. -/
def query_no_configs (proxy : Rpc → ProxyResult) (q : TaskQuery) : CallOutcome × List Rpc :=
  match proxy (Rpc.getTasksWithoutConfigs q) with
  | ProxyResult.reply r => (CallOutcome.ok r, [Rpc.getTasksWithoutConfigs q])
  | ProxyResult.thriftError a =>
      (CallOutcome.apiError (ApiError.thriftInternalError a), [Rpc.getTasksWithoutConfigs q])

/-- `AuroraClientAPI.start_cronjob`: validate the job key, then dispatch
`startCronJob` with the thrift key. -/
def start_cronjob (api : AuroraClientAPI) (proxy : Rpc → ProxyResult) (job_key : JobKeyArg) :
    CallOutcome × List Rpc :=
  match assert_valid_job_key api job_key with
  | Except.error e => (CallOutcome.apiError e, [])
  | Except.ok k => dispatchRaw proxy (Rpc.startCronJob k.to_thrift)

/-- `AuroraClientAPI.kill_job`: validate the job key, build the task
query (restricting to `instances` when given), and dispatch
`killTasks`. -/
def kill_job (api : AuroraClientAPI) (proxy : Rpc → ProxyResult) (job_key : JobKeyArg)
    (instances : Option (List Nat)) (lock : Option Lock) : CallOutcome × List Rpc :=
  match assert_valid_job_key api job_key with
  | Except.error e => (CallOutcome.apiError e, [])
  | Except.ok k =>
      let q0 := k.to_thrift_query
      let q := match instances with
               | some is => { q0 with instanceIds := some is }
               | none => q0
      dispatchRaw proxy (Rpc.killTasks q lock)

/-- `AuroraClientAPI.check_status`: validate the job key, then query the
scheduler through `query_no_configs` with the thrift query. -/
def check_status (api : AuroraClientAPI) (proxy : Rpc → ProxyResult) (job_key : JobKeyArg) :
    CallOutcome × List Rpc :=
  match assert_valid_job_key api job_key with
  | Except.error e => (CallOutcome.apiError e, [])
  | Except.ok k => query_no_configs proxy k.to_thrift_query

/-- `AuroraClientAPI.cancel_update`: validate the job key, then delegate
to `Updater.cancel_update` (collaborator outside the fragment, recorded
as one tagged dispatch). -/
def cancel_update (api : AuroraClientAPI) (proxy : Rpc → ProxyResult) (job_key : JobKeyArg) :
    CallOutcome × List Rpc :=
  match assert_valid_job_key api job_key with
  | Except.error e => (CallOutcome.apiError e, [])
  | Except.ok k => dispatchRaw proxy (Rpc.updaterCancelUpdate k)

/-- `AuroraClientAPI.restart`: validate the job key, then delegate to
`Restarter.restart` (collaborator outside the fragment, recorded as one
tagged dispatch). -/
def restart (api : AuroraClientAPI) (proxy : Rpc → ProxyResult) (job_key : JobKeyArg)
    (instances : Option (List Nat)) : CallOutcome × List Rpc :=
  match assert_valid_job_key api job_key with
  | Except.error e => (CallOutcome.apiError e, [])
  | Except.ok k => dispatchRaw proxy (Rpc.restarterRestart k instances)

/-- `AuroraClientAPI.sla_get_job_uptime_vector`: validate the job key,
then delegate to `Sla.get_job_uptime_vector` (collaborator outside the
fragment, recorded as one tagged dispatch). -/
def sla_get_job_uptime_vector (api : AuroraClientAPI) (proxy : Rpc → ProxyResult)
    (job_key : JobKeyArg) : CallOutcome × List Rpc :=
  match assert_valid_job_key api job_key with
  | Except.error e => (CallOutcome.apiError e, [])
  | Except.ok k => dispatchRaw proxy (Rpc.slaJobUptimeVector k)

/-! ## Helper lemmas about the invoke loop -/

/-- Unfolding: an auth failure on dispatch `k` stops the loop with
`authError` after that one dispatch. -/
theorem invokeLoop_auth (cfg : ProxyConfig) (dispatch : Nat → DispatchResult)
    (base : List Arg) (m k : Nat) (h : dispatch k = DispatchResult.authFailure) :
    invokeLoop cfg dispatch base (m + 1) k =
      (InvokeOutcome.authError, [argsFor cfg base k]) := by
  simp [invokeLoop, h]

/-- Unfolding: a transport failure on dispatch `k` reconnects and
continues the loop at dispatch `k + 1`. -/
theorem invokeLoop_transport (cfg : ProxyConfig) (dispatch : Nat → DispatchResult)
    (base : List Arg) (m k : Nat) (h : dispatch k = DispatchResult.transportFailure) :
    invokeLoop cfg dispatch base (m + 1) k =
      ((invokeLoop cfg dispatch base m (k + 1)).1,
        argsFor cfg base k :: (invokeLoop cfg dispatch base m (k + 1)).2) := by
  simp [invokeLoop, h]

/-- Unfolding: a reply with a mismatching protocol version stops the
loop with `thriftInternalError` after that one dispatch. -/
theorem invokeLoop_reply_mismatch (cfg : ProxyConfig) (dispatch : Nat → DispatchResult)
    (base : List Arg) (m k : Nat) (r : Response) (h : dispatch k = DispatchResult.reply r)
    (hv : r.serverInfo.protocolVersion ≠ cfg.expectedVersion) :
    invokeLoop cfg dispatch base (m + 1) k =
      (InvokeOutcome.thriftInternalError, [argsFor cfg base k]) := by
  simp [invokeLoop, h, hv]

/-- Unfolding: a version-matching `ERROR_TRANSIENT` reply continues the
loop at dispatch `k + 1`. -/
theorem invokeLoop_reply_transient (cfg : ProxyConfig) (dispatch : Nat → DispatchResult)
    (base : List Arg) (m k : Nat) (r : Response) (h : dispatch k = DispatchResult.reply r)
    (hv : r.serverInfo.protocolVersion = cfg.expectedVersion)
    (ht : r.responseCode = ResponseCode.ERROR_TRANSIENT) :
    invokeLoop cfg dispatch base (m + 1) k =
      ((invokeLoop cfg dispatch base m (k + 1)).1,
        argsFor cfg base k :: (invokeLoop cfg dispatch base m (k + 1)).2) := by
  simp [invokeLoop, h, hv, ht]

/-- Unfolding: a version-matching non-transient reply stops the loop,
returning that response after that one dispatch. -/
theorem invokeLoop_reply_final (cfg : ProxyConfig) (dispatch : Nat → DispatchResult)
    (base : List Arg) (m k : Nat) (r : Response) (h : dispatch k = DispatchResult.reply r)
    (hv : r.serverInfo.protocolVersion = cfg.expectedVersion)
    (ht : r.responseCode ≠ ResponseCode.ERROR_TRANSIENT) :
    invokeLoop cfg dispatch base (m + 1) k =
      (InvokeOutcome.returned r, [argsFor cfg base k]) := by
  simp [invokeLoop, h, hv, ht]

/-- If, starting at dispatch index `k`, the next `n` dispatches reply
with version-matching `ERROR_TRANSIENT` envelopes and dispatch `k + n`
replies with a version-matching non-transient envelope, then the loop
returns that final response after exactly `n + 1` dispatches, given
enough fuel. -/
theorem invokeLoop_run (cfg : ProxyConfig) (dispatch : Nat → DispatchResult)
    (base : List Arg) (resp : Nat → Response) :
    ∀ (n k fuel : Nat),
      (∀ i, i ≤ n → dispatch (k + i) = DispatchResult.reply (resp (k + i))) →
      (∀ i, i ≤ n → (resp (k + i)).serverInfo.protocolVersion = cfg.expectedVersion) →
      (∀ i, i < n → (resp (k + i)).responseCode = ResponseCode.ERROR_TRANSIENT) →
      (resp (k + n)).responseCode ≠ ResponseCode.ERROR_TRANSIENT →
      n + 1 ≤ fuel →
      (invokeLoop cfg dispatch base fuel k).1 = InvokeOutcome.returned (resp (k + n)) ∧
        (invokeLoop cfg dispatch base fuel k).2.length = n + 1 := by
  intro n
  induction n with
  | zero =>
    intro k fuel hd hver _ht hfinal hfuel
    obtain ⟨m, rfl⟩ : ∃ m, fuel = m + 1 := ⟨fuel - 1, by omega⟩
    have h0 := hd 0 (Nat.le_refl 0)
    have hv0 := hver 0 (Nat.le_refl 0)
    simp only [Nat.add_zero] at h0 hv0 hfinal
    simp [invokeLoop, h0, hv0, hfinal]
  | succ n ih =>
    intro k fuel hd hver ht hfinal hfuel
    obtain ⟨m, rfl⟩ : ∃ m, fuel = m + 1 := ⟨fuel - 1, by omega⟩
    have h0 := hd 0 (Nat.zero_le _)
    have hv0 := hver 0 (Nat.zero_le _)
    have ht0 := ht 0 (Nat.succ_pos n)
    simp only [Nat.add_zero] at h0 hv0 ht0
    have hshift : ∀ i, k + 1 + i = k + (i + 1) := by omega
    have ihk := ih (k + 1) m
      (fun i hi => by rw [hshift i]; exact hd (i + 1) (by omega))
      (fun i hi => by rw [hshift i]; exact hver (i + 1) (by omega))
      (fun i hi => by rw [hshift i]; exact ht (i + 1) (by omega))
      (by rw [hshift n]; exact hfinal)
      (by omega)
    rw [hshift n] at ihk
    simp only [invokeLoop, h0, hv0, ht0, if_pos, if_true, List.length_cons]
    exact ⟨ihk.1, by omega⟩

/-- A response surfaced as the result of the invoke loop never carries
`ERROR_TRANSIENT`. -/
theorem invokeLoop_no_transient (cfg : ProxyConfig) (dispatch : Nat → DispatchResult)
    (base : List Arg) :
    ∀ (fuel k : Nat) (r : Response),
      (invokeLoop cfg dispatch base fuel k).1 = InvokeOutcome.returned r →
      r.responseCode ≠ ResponseCode.ERROR_TRANSIENT := by
  intro fuel
  induction fuel with
  | zero => intro k r h; simp [invokeLoop] at h
  | succ m ih =>
    intro k r h
    cases hd : dispatch k with
    | authFailure =>
        rw [invokeLoop_auth cfg dispatch base m k hd] at h
        simp at h
    | transportFailure =>
        rw [invokeLoop_transport cfg dispatch base m k hd] at h
        exact ih (k + 1) r h
    | reply resp =>
        by_cases hv : resp.serverInfo.protocolVersion = cfg.expectedVersion
        · by_cases htr : resp.responseCode = ResponseCode.ERROR_TRANSIENT
          · rw [invokeLoop_reply_transient cfg dispatch base m k resp hd hv htr] at h
            exact ih (k + 1) r h
          · rw [invokeLoop_reply_final cfg dispatch base m k resp hd hv htr] at h
            simp at h
            rw [← h]
            exact htr
        · rw [invokeLoop_reply_mismatch cfg dispatch base m k resp hd hv] at h
          simp at h

/-- Every element of the dispatch trace of the invoke loop is the
argument list built for that dispatch: the caller arguments with the
session of the corresponding fetch index appended when required. -/
theorem invokeLoop_trace_args (cfg : ProxyConfig) (dispatch : Nat → DispatchResult)
    (base : List Arg) :
    ∀ (fuel k j : Nat), j < (invokeLoop cfg dispatch base fuel k).2.length →
      (invokeLoop cfg dispatch base fuel k).2.getD j [] = argsFor cfg base (k + j) := by
  intro fuel
  induction fuel with
  | zero => intro k j hj; simp [invokeLoop] at hj
  | succ m ih =>
    intro k j hj
    cases hd : dispatch k with
    | authFailure =>
        rw [invokeLoop_auth cfg dispatch base m k hd] at hj ⊢
        simp at hj
        subst hj
        simp
    | transportFailure =>
        rw [invokeLoop_transport cfg dispatch base m k hd] at hj ⊢
        cases j with
        | zero => simp
        | succ j =>
            simp only [List.length_cons, Nat.succ_lt_succ_iff] at hj
            simp only [List.getD_cons_succ]
            rw [ih (k + 1) j hj]
            congr 1
            omega
    | reply resp =>
        by_cases hv : resp.serverInfo.protocolVersion = cfg.expectedVersion
        · by_cases htr : resp.responseCode = ResponseCode.ERROR_TRANSIENT
          · rw [invokeLoop_reply_transient cfg dispatch base m k resp hd hv htr] at hj ⊢
            cases j with
            | zero => simp
            | succ j =>
                simp only [List.length_cons, Nat.succ_lt_succ_iff] at hj
                simp only [List.getD_cons_succ]
                rw [ih (k + 1) j hj]
                congr 1
                omega
          · rw [invokeLoop_reply_final cfg dispatch base m k resp hd hv htr] at hj ⊢
            simp at hj
            subst hj
            simp
        · rw [invokeLoop_reply_mismatch cfg dispatch base m k resp hd hv] at hj ⊢
          simp at hj
          subst hj
          simp

/-! ## Concrete instances used by the witnesses -/

/-- A concrete proxy configuration: expected protocol version 7, an RPC
requiring a session, and a factory whose `k`-th fetch is observable in
the session data. -/
def cfgW : ProxyConfig :=
  ⟨7, true, fun k => ⟨"test", toString k⟩⟩

/-- A concrete response schedule: `ERROR_TRANSIENT` twice, then `OK`,
all at the expected protocol version (the schedule of
`test_transient_error`). -/
def respW : Nat → Response := fun i =>
  if i < 2 then ⟨ResponseCode.ERROR_TRANSIENT, ⟨7⟩, ["message1"]⟩
  else ⟨ResponseCode.OK, ⟨7⟩, []⟩

/-- The dispatch behaviour replying with `respW`. -/
def dispatchW : Nat → DispatchResult := fun i => DispatchResult.reply (respW i)

/-! ## C1: transient-error retry -/

/-- C1. If the underlying thrift dispatch returns version-matching
`ERROR_TRANSIENT` responses on the first `n` attempts and a
version-matching non-transient response on attempt `n + 1`, one call
through `SchedulerProxy` performs exactly `n + 1` underlying dispatches
and returns the final non-transient response; moreover no
`ERROR_TRANSIENT` response is ever surfaced as a result of the loop. -/
theorem transient_retry (cfg : ProxyConfig) (dispatch : Nat → DispatchResult)
    (base : List Arg) (resp : Nat → Response) (n fuel : Nat)
    (hd : ∀ i, i ≤ n → dispatch i = DispatchResult.reply (resp i))
    (hver : ∀ i, i ≤ n → (resp i).serverInfo.protocolVersion = cfg.expectedVersion)
    (htrans : ∀ i, i < n → (resp i).responseCode = ResponseCode.ERROR_TRANSIENT)
    (hfinal : (resp n).responseCode ≠ ResponseCode.ERROR_TRANSIENT)
    (hfuel : n + 1 ≤ fuel) :
    (invoke cfg dispatch base fuel).1 = InvokeOutcome.returned (resp n) ∧
      (invoke cfg dispatch base fuel).2.length = n + 1 ∧
      ∀ (d : Nat → DispatchResult) (fuel2 k : Nat) (r : Response),
        (invokeLoop cfg d base fuel2 k).1 = InvokeOutcome.returned r →
        r.responseCode ≠ ResponseCode.ERROR_TRANSIENT := by
  have h := invokeLoop_run cfg dispatch base resp n 0 fuel
    (fun i hi => by simpa using hd i hi)
    (fun i hi => by simpa using hver i hi)
    (fun i hi => by simpa using htrans i hi)
    (by simpa using hfinal)
    hfuel
  simp only [Nat.zero_add] at h
  exact ⟨h.1, h.2, fun d fuel2 k r hr => invokeLoop_no_transient cfg d base fuel2 k r hr⟩

/-- Witness for C1: the schedule of `test_transient_error` — transient
twice, then `OK` — performs exactly three dispatches and returns the
`OK` response. -/
theorem transient_retry_witness :
    (invoke cfgW dispatchW [] 3).1 = InvokeOutcome.returned (respW 2) ∧
      (invoke cfgW dispatchW [] 3).2.length = 2 + 1 ∧
      ∀ (d : Nat → DispatchResult) (fuel2 k : Nat) (r : Response),
        (invokeLoop cfgW d [] fuel2 k).1 = InvokeOutcome.returned r →
        r.responseCode ≠ ResponseCode.ERROR_TRANSIENT :=
  transient_retry cfgW dispatchW [] respW 2 3
    (fun _ _ => rfl)
    (fun i hi => by interval_cases i <;> rfl)
    (fun i hi => by interval_cases i <;> rfl)
    (by decide)
    (by omega)

/-! ## C2: protocol version mismatch is fatal -/

/-- C2. If the first dispatch returns a response whose protocol version
differs from the compiled-in expected version, the call raises
`ThriftInternalError` — whatever the response code, hence in particular
when it is `OK` — and performs exactly one dispatch (it is not
retried). -/
theorem version_mismatch_fatal (cfg : ProxyConfig) (dispatch : Nat → DispatchResult)
    (base : List Arg) (r : Response) (fuel : Nat)
    (h0 : dispatch 0 = DispatchResult.reply r)
    (hver : r.serverInfo.protocolVersion ≠ cfg.expectedVersion)
    (hfuel : 1 ≤ fuel) :
    invoke cfg dispatch base fuel = (InvokeOutcome.thriftInternalError, [argsFor cfg base 0]) := by
  obtain ⟨m, rfl⟩ : ∃ m, fuel = m + 1 := ⟨fuel - 1, by omega⟩
  exact invokeLoop_reply_mismatch cfg dispatch base m 0 r h0 hver

/-- A response that is `OK` but carries protocol version 8 instead of
the expected 7. -/
def respMismatchW : Response := ⟨ResponseCode.OK, ⟨8⟩, []⟩

/-- Witness for C2: an `OK` response at version 8 against expected
version 7 raises `ThriftInternalError` after a single dispatch. -/
theorem version_mismatch_fatal_witness :
    invoke cfgW (fun _ => DispatchResult.reply respMismatchW) [] 5 =
      (InvokeOutcome.thriftInternalError, [argsFor cfgW [] 0]) :=
  version_mismatch_fatal cfgW (fun _ => DispatchResult.reply respMismatchW) [] respMismatchW 5
    rfl (by decide) (by omega)

/-! ## C3: auth errors are fatal and never retried -/

/-- C3. If the transport raises an authentication failure on the first
dispatch, the call raises `AuthError` with exactly one underlying
dispatch performed. -/
theorem auth_error_not_retried (cfg : ProxyConfig) (dispatch : Nat → DispatchResult)
    (base : List Arg) (fuel : Nat)
    (h0 : dispatch 0 = DispatchResult.authFailure)
    (hfuel : 1 ≤ fuel) :
    invoke cfg dispatch base fuel = (InvokeOutcome.authError, [argsFor cfg base 0]) := by
  obtain ⟨m, rfl⟩ : ∃ m, fuel = m + 1 := ⟨fuel - 1, by omega⟩
  exact invokeLoop_auth cfg dispatch base m 0 h0

/-- Witness for C3: a transport auth failure raises `AuthError` after a
single dispatch even with plenty of fuel left. -/
theorem auth_error_not_retried_witness :
    invoke cfgW (fun _ => DispatchResult.authFailure) [] 9 =
      (InvokeOutcome.authError, [argsFor cfgW [] 0]) :=
  auth_error_not_retried cfgW (fun _ => DispatchResult.authFailure) [] 9 rfl (by omega)

/-! ## C4: constant-backoff connect retry -/

/-- C4. If the first transport-open attempt raises a transport error and
the second attempt succeeds, the connect loop sleeps exactly once, for
the constant `RETRY_TIMEOUT` interval, and returns connected after
exactly two open attempts. -/
theorem connect_retry_two_attempts (attempt : Nat → OpenResult) (fuel : Nat)
    (h0 : attempt 0 = OpenResult.transportError)
    (h1 : attempt 1 = OpenResult.success)
    (hfuel : 2 ≤ fuel) :
    connect_scheduler attempt RETRY_TIMEOUT fuel 0 =
      ⟨ConnectOutcome.connected, 2, [RETRY_TIMEOUT]⟩ := by
  obtain ⟨m, rfl⟩ : ∃ m, fuel = m + 2 := ⟨fuel - 2, by omega⟩
  simp [connect_scheduler, h0, h1]

/-- The open-attempt schedule of `test_connect_scheduler`: transport
error first, success second. -/
def attemptW : Nat → OpenResult := fun k =>
  if k = 0 then OpenResult.transportError else OpenResult.success

/-- Witness for C4: with the failure-then-success schedule, connect
returns after two attempts having slept once for `RETRY_TIMEOUT`. -/
theorem connect_retry_two_attempts_witness :
    connect_scheduler attemptW RETRY_TIMEOUT 4 0 =
      ⟨ConnectOutcome.connected, 2, [RETRY_TIMEOUT]⟩ :=
  connect_retry_two_attempts attemptW 4 (by decide) (by decide) (by omega)

/-! ## C5: proxy URL is logical only; transports use the physical
address -/

/-- C5. For a freshly constructed zookeeper scheduler client whose
serverset resolves a leader: with a proxy URL configured, the logical
address `url` is the proxy URL while the physical address `raw_url` is
the discovered leader endpoint; with no proxy URL, `url` equals
`raw_url`; and obtaining the thrift client opens the transport only
against the physical (raw) address, never against the proxy URL. -/
theorem proxy_url_vs_raw_url (clusterName : String) (proxyUrl : Option String)
    (scheme : String) (serverset : List ServiceInstance) (inst : ServiceInstance)
    (hleader : getLeader serverset = some inst) :
    let c : ZkSchedulerClient :=
      ⟨⟨clusterName, proxyUrl⟩, scheme, serverset, none, 0, [], false⟩
    let ep := resolveWithScheme inst scheme
    raw_url c = some (mkUrl ep) ∧
      (∀ p, proxyUrl = some p → url c = some p) ∧
      (proxyUrl = none → url c = raw_url c) ∧
      (get_thrift_client c).connects = [mkUrl ep ++ "/api"] ∧
      (∀ p, proxyUrl = some p → p ≠ mkUrl ep ++ "/api" →
        p ∉ (get_thrift_client c).connects) := by
  intro c ep
  have hdisc : discoverEndpoint c = some ep := by
    simp [discoverEndpoint, c, hleader, ep]
  have hens : ensureEndpoint c = { c with cachedEndpoint := some ep, lookups := 1 } := by
    simp [ensureEndpoint, c, hdisc]
  refine ⟨?_, ?_, ?_, ?_, ?_⟩
  · simp [raw_url, hens]
  · intro p hp
    simp [url, c, hp]
  · intro hp
    simp [url, c, hp]
  · simp [get_thrift_client, hens, c]
  · intro p hp hne
    simp [get_thrift_client, hens, c, hne]

/-- A concrete serverset for the witnesses: one alive leader instance
advertising an `https` alternate endpoint alongside its primary. -/
def instW : ServiceInstance :=
  ⟨⟨"http", "some-host.example.com", 31181⟩,
   [("https", ⟨"some-host.example.com", 31181⟩)],
   InstanceStatus.ALIVE, 0⟩

/-- Witness for C5: the concrete single-instance serverset with a proxy
URL configured. -/
theorem proxy_url_vs_raw_url_witness :
    let c : ZkSchedulerClient :=
      ⟨⟨"local", some "https://scheduler.proxy"⟩, "https", [instW], none, 0, [], false⟩
    let ep := resolveWithScheme instW "https"
    raw_url c = some (mkUrl ep) ∧
      (∀ p, (some "https://scheduler.proxy" : Option String) = some p → url c = some p) ∧
      ((some "https://scheduler.proxy" : Option String) = none → url c = raw_url c) ∧
      (get_thrift_client c).connects = [mkUrl ep ++ "/api"] ∧
      (∀ p, (some "https://scheduler.proxy" : Option String) = some p →
        p ≠ mkUrl ep ++ "/api" → p ∉ (get_thrift_client c).connects) :=
  proxy_url_vs_raw_url "local" (some "https://scheduler.proxy") "https" [instW] instW
    (by decide)

/-! ## C6: scheme-preference endpoint selection -/

/-- C6. Resolving a discovered instance with a required scheme yields
the host and port of the alternate endpoint whose scheme matches when
one is advertised, and falls back to the primary `serviceEndpoint`
otherwise. -/
theorem scheme_preference (inst1 inst2 : ServiceInstance) (scheme : String) (ep : Endpoint)
    (h1 : inst1.additionalEndpoints.lookup scheme = some ep)
    (h2 : inst2.additionalEndpoints.lookup scheme = none) :
    resolveWithScheme inst1 scheme = ⟨scheme, ep.host, ep.port⟩ ∧
      resolveWithScheme inst2 scheme = inst2.serviceEndpoint := by
  constructor
  · simp [resolveWithScheme, h1]
  · simp [resolveWithScheme, h2]

/-- An instance with no alternate endpoints, for the fallback branch. -/
def instPlainW : ServiceInstance :=
  ⟨⟨"http", "some-host.example.com", 31181⟩, [], InstanceStatus.ALIVE, 0⟩

/-- Witness for C6: `instW` advertises an `https` alternate, which is
selected; `instPlainW` advertises none, so the primary endpoint is
used. -/
theorem scheme_preference_witness :
    resolveWithScheme instW "https" = ⟨"https", "some-host.example.com", 31181⟩ ∧
      resolveWithScheme instPlainW "https" = instPlainW.serviceEndpoint :=
  scheme_preference instW instPlainW "https" ⟨"some-host.example.com", 31181⟩
    (by decide) (by decide)

/-! ## C7: endpoint resolution is cached until invalidation -/

/-- C7. Two successive `get_thrift_client` calls on a fresh client
perform exactly one registry lookup and one transport connection: the
second call leaves the state unchanged (cached endpoint and transport
reused).  Re-resolution happens after an explicit invalidation, which
causes exactly one further lookup and one further connection. -/
theorem resolution_idempotent (clusterName : String) (proxyUrl : Option String)
    (scheme : String) (serverset : List ServiceInstance) (inst : ServiceInstance)
    (hleader : getLeader serverset = some inst) :
    let c : ZkSchedulerClient :=
      ⟨⟨clusterName, proxyUrl⟩, scheme, serverset, none, 0, [], false⟩
    let c1 := get_thrift_client c
    let c2 := get_thrift_client c1
    c1.lookups = 1 ∧ c1.connects.length = 1 ∧ c2 = c1 ∧
      (get_thrift_client (invalidate c2)).lookups = 2 ∧
      (get_thrift_client (invalidate c2)).connects.length = 2 := by
  intro c c1 c2
  have hdisc : discoverEndpoint c = some (resolveWithScheme inst scheme) := by
    simp [discoverEndpoint, c, hleader]
  have hc1 : c1 = ⟨⟨clusterName, proxyUrl⟩, scheme, serverset, some (resolveWithScheme inst scheme), 1, [mkUrl (resolveWithScheme inst scheme) ++ "/api"], true⟩ := by
    simp [c1, get_thrift_client, ensureEndpoint, c, hdisc]
  have hc2 : c2 = c1 := by
    rw [show c2 = get_thrift_client c1 from rfl, hc1]
    simp [get_thrift_client, ensureEndpoint]
  refine ⟨by simp [hc1], by simp [hc1], hc2, ?_, ?_⟩
  · rw [hc2, hc1]
    simp [get_thrift_client, ensureEndpoint, invalidate, discoverEndpoint, hleader]
  · rw [hc2, hc1]
    simp [get_thrift_client, ensureEndpoint, invalidate, discoverEndpoint, hleader]

/-- Witness for C7: the concrete single-instance serverset, no proxy
URL. -/
theorem resolution_idempotent_witness :
    let c : ZkSchedulerClient :=
      ⟨⟨"local", none⟩, "https", [instW], none, 0, [], false⟩
    let c1 := get_thrift_client c
    let c2 := get_thrift_client c1
    c1.lookups = 1 ∧ c1.connects.length = 1 ∧ c2 = c1 ∧
      (get_thrift_client (invalidate c2)).lookups = 2 ∧
      (get_thrift_client (invalidate c2)).connects.length = 2 :=
  resolution_idempotent "local" none "https" [instW] instW (by decide)

/-! ## C8: a fresh session is injected before every dispatch -/

/-- C8. For an RPC whose signature requires a session, every underlying
dispatch of the invoke loop — the first as well as every transient- or
transport-retry re-dispatch — receives the caller arguments with a
session appended as the final argument, and that session is the value
freshly obtained from the session-key factory at that dispatch (fetch
index `k + j` for the `j`-th dispatch of a loop started at fetch count
`k`): no session value is cached and reused across dispatches or
calls. -/
theorem session_injected_fresh (cfg : ProxyConfig) (dispatch : Nat → DispatchResult)
    (base : List Arg) (fuel k j : Nat)
    (hreq : cfg.requiresSession = true)
    (hj : j < (invokeLoop cfg dispatch base fuel k).2.length) :
    (invokeLoop cfg dispatch base fuel k).2.getD j [] =
      base ++ [Arg.session (cfg.session_key (k + j))] := by
  rw [invokeLoop_trace_args cfg dispatch base fuel k j hj]
  simp [argsFor, hreq]

/-- Witness for C8: in the transient-retry run of `dispatchW`, the
second dispatch (index 1) carries the session freshly fetched at fetch
index 1. -/
theorem session_injected_fresh_witness :
    (invokeLoop cfgW dispatchW [] 3 0).2.getD 1 [] =
      [] ++ [Arg.session (cfgW.session_key (0 + 1))] :=
  session_injected_fresh cfgW dispatchW [] 3 0 1 rfl (by decide)

/-! ## C9: job-key validation happens before any RPC -/

/-- C9. For every job-key-validating API operation (`start_cronjob`,
`kill_job`, `check_status`, `cancel_update`, `restart`,
`sla_get_job_uptime_vector`): a `job_key` that is not an `AuroraJobKey`
raises `TypeError`, and an `AuroraJobKey` whose cluster differs from the
configured cluster's name raises `ClusterMismatch`; in both cases the
dispatch trace is empty — no RPC reaches the scheduler proxy. -/
theorem job_key_validated_before_rpc (api : AuroraClientAPI) (proxy : Rpc → ProxyResult)
    (d : String) (k : AuroraJobKey) (instances : Option (List Nat)) (lock : Option Lock)
    (hk : k.cluster ≠ api.cluster.name) :
    (start_cronjob api proxy (JobKeyArg.other d) =
        (CallOutcome.apiError (ApiError.typeError (typeErrorMsg d)), []) ∧
      kill_job api proxy (JobKeyArg.other d) instances lock =
        (CallOutcome.apiError (ApiError.typeError (typeErrorMsg d)), []) ∧
      check_status api proxy (JobKeyArg.other d) =
        (CallOutcome.apiError (ApiError.typeError (typeErrorMsg d)), []) ∧
      cancel_update api proxy (JobKeyArg.other d) =
        (CallOutcome.apiError (ApiError.typeError (typeErrorMsg d)), []) ∧
      restart api proxy (JobKeyArg.other d) instances =
        (CallOutcome.apiError (ApiError.typeError (typeErrorMsg d)), []) ∧
      sla_get_job_uptime_vector api proxy (JobKeyArg.other d) =
        (CallOutcome.apiError (ApiError.typeError (typeErrorMsg d)), [])) ∧
    (start_cronjob api proxy (JobKeyArg.aurora k) =
        (CallOutcome.apiError (ApiError.clusterMismatch (clusterMismatchMsg k api.cluster.name)), []) ∧
      kill_job api proxy (JobKeyArg.aurora k) instances lock =
        (CallOutcome.apiError (ApiError.clusterMismatch (clusterMismatchMsg k api.cluster.name)), []) ∧
      check_status api proxy (JobKeyArg.aurora k) =
        (CallOutcome.apiError (ApiError.clusterMismatch (clusterMismatchMsg k api.cluster.name)), []) ∧
      cancel_update api proxy (JobKeyArg.aurora k) =
        (CallOutcome.apiError (ApiError.clusterMismatch (clusterMismatchMsg k api.cluster.name)), []) ∧
      restart api proxy (JobKeyArg.aurora k) instances =
        (CallOutcome.apiError (ApiError.clusterMismatch (clusterMismatchMsg k api.cluster.name)), []) ∧
      sla_get_job_uptime_vector api proxy (JobKeyArg.aurora k) =
        (CallOutcome.apiError (ApiError.clusterMismatch (clusterMismatchMsg k api.cluster.name)), [])) := by
  refine ⟨⟨?_, ?_, ?_, ?_, ?_, ?_⟩, ⟨?_, ?_, ?_, ?_, ?_, ?_⟩⟩ <;>
    simp [start_cronjob, kill_job, check_status, cancel_update, restart,
      sla_get_job_uptime_vector, assert_valid_job_key, hk]

/-- A concrete API instance for the witnesses: cluster `local`. -/
def apiW : AuroraClientAPI := ⟨⟨"local", none⟩⟩

/-- A concrete proxy replying `OK` to everything. -/
def proxyOkW : Rpc → ProxyResult := fun _ => ProxyResult.reply ⟨ResponseCode.OK, ⟨7⟩, []⟩

/-- A job key belonging to cluster `remote`, mismatching `local`. -/
def jobKeyRemoteW : AuroraJobKey := ⟨"remote", "foorole", "devel", "barjobname"⟩

/-- Witness for C9: against the `local`-cluster API, a non-`AuroraJobKey`
argument and a `remote`-cluster key each fail validation with an empty
dispatch trace, for all six operations. -/
theorem job_key_validated_before_rpc_witness :
    (start_cronjob apiW proxyOkW (JobKeyArg.other "str") =
        (CallOutcome.apiError (ApiError.typeError (typeErrorMsg "str")), []) ∧
      kill_job apiW proxyOkW (JobKeyArg.other "str") none none =
        (CallOutcome.apiError (ApiError.typeError (typeErrorMsg "str")), []) ∧
      check_status apiW proxyOkW (JobKeyArg.other "str") =
        (CallOutcome.apiError (ApiError.typeError (typeErrorMsg "str")), []) ∧
      cancel_update apiW proxyOkW (JobKeyArg.other "str") =
        (CallOutcome.apiError (ApiError.typeError (typeErrorMsg "str")), []) ∧
      restart apiW proxyOkW (JobKeyArg.other "str") none =
        (CallOutcome.apiError (ApiError.typeError (typeErrorMsg "str")), []) ∧
      sla_get_job_uptime_vector apiW proxyOkW (JobKeyArg.other "str") =
        (CallOutcome.apiError (ApiError.typeError (typeErrorMsg "str")), [])) ∧
    (start_cronjob apiW proxyOkW (JobKeyArg.aurora jobKeyRemoteW) =
        (CallOutcome.apiError (ApiError.clusterMismatch (clusterMismatchMsg jobKeyRemoteW apiW.cluster.name)), []) ∧
      kill_job apiW proxyOkW (JobKeyArg.aurora jobKeyRemoteW) none none =
        (CallOutcome.apiError (ApiError.clusterMismatch (clusterMismatchMsg jobKeyRemoteW apiW.cluster.name)), []) ∧
      check_status apiW proxyOkW (JobKeyArg.aurora jobKeyRemoteW) =
        (CallOutcome.apiError (ApiError.clusterMismatch (clusterMismatchMsg jobKeyRemoteW apiW.cluster.name)), []) ∧
      cancel_update apiW proxyOkW (JobKeyArg.aurora jobKeyRemoteW) =
        (CallOutcome.apiError (ApiError.clusterMismatch (clusterMismatchMsg jobKeyRemoteW apiW.cluster.name)), []) ∧
      restart apiW proxyOkW (JobKeyArg.aurora jobKeyRemoteW) none =
        (CallOutcome.apiError (ApiError.clusterMismatch (clusterMismatchMsg jobKeyRemoteW apiW.cluster.name)), []) ∧
      sla_get_job_uptime_vector apiW proxyOkW (JobKeyArg.aurora jobKeyRemoteW) =
        (CallOutcome.apiError (ApiError.clusterMismatch (clusterMismatchMsg jobKeyRemoteW apiW.cluster.name)), [])) :=
  job_key_validated_before_rpc apiW proxyOkW "str" jobKeyRemoteW none none (by decide)

/-! ## C10: query and query_no_configs translate proxy thrift errors -/

/-- C10. `query` forwards to `getTasksStatus` and `query_no_configs` to
`getTasksWithoutConfigs`; a successful proxy response is returned
unchanged, and a `SchedulerProxy.ThriftInternalError` is re-raised as
`AuroraClientAPI.ThriftInternalError` carrying the same first exception
argument. -/
theorem query_translates_thrift_error (proxyA proxyB : Rpc → ProxyResult) (q : TaskQuery)
    (r : Response) (a : String)
    (h1 : proxyA (Rpc.getTasksStatus q) = ProxyResult.reply r)
    (h2 : proxyB (Rpc.getTasksStatus q) = ProxyResult.thriftError a)
    (h3 : proxyA (Rpc.getTasksWithoutConfigs q) = ProxyResult.reply r)
    (h4 : proxyB (Rpc.getTasksWithoutConfigs q) = ProxyResult.thriftError a) :
    query proxyA q = (CallOutcome.ok r, [Rpc.getTasksStatus q]) ∧
      query proxyB q =
        (CallOutcome.apiError (ApiError.thriftInternalError a), [Rpc.getTasksStatus q]) ∧
      query_no_configs proxyA q = (CallOutcome.ok r, [Rpc.getTasksWithoutConfigs q]) ∧
      query_no_configs proxyB q =
        (CallOutcome.apiError (ApiError.thriftInternalError a),
          [Rpc.getTasksWithoutConfigs q]) := by
  refine ⟨?_, ?_, ?_, ?_⟩ <;> simp [query, query_no_configs, h1, h2, h3, h4]

/-- A concrete proxy raising `ThriftInternalError` on everything. -/
def proxyErrW : Rpc → ProxyResult := fun _ => ProxyResult.thriftError "Invalid response"

/-- A concrete empty task query. -/
def taskQueryW : TaskQuery := ⟨[], none⟩

/-- Witness for C10: an `OK` reply passes through unchanged; a proxy
thrift error is translated, keeping its first argument. -/
theorem query_translates_thrift_error_witness :
    query proxyOkW taskQueryW =
        (CallOutcome.ok ⟨ResponseCode.OK, ⟨7⟩, []⟩, [Rpc.getTasksStatus taskQueryW]) ∧
      query proxyErrW taskQueryW =
        (CallOutcome.apiError (ApiError.thriftInternalError "Invalid response"),
          [Rpc.getTasksStatus taskQueryW]) ∧
      query_no_configs proxyOkW taskQueryW =
        (CallOutcome.ok ⟨ResponseCode.OK, ⟨7⟩, []⟩, [Rpc.getTasksWithoutConfigs taskQueryW]) ∧
      query_no_configs proxyErrW taskQueryW =
        (CallOutcome.apiError (ApiError.thriftInternalError "Invalid response"),
          [Rpc.getTasksWithoutConfigs taskQueryW]) :=
  query_translates_thrift_error proxyOkW proxyErrW taskQueryW ⟨ResponseCode.OK, ⟨7⟩, []⟩
    "Invalid response" rfl rfl rfl rfl

end Aurora
